import Mathlib

/-!
Verification of the data-access layer of the SAP-final-frontend repository
(`src/lib/api.ts` and the dashboard aggregation in `src/pages/Dashboard.tsx`).

The embedding models, faithfully to the TypeScript source:
  * JSON values (numbers restricted to integers, which is all the claims touch),
    JavaScript truthiness and the `x || y` / `obj.message` idioms;
  * the `ApiError` class (message, status, optional raw response body);
  * the outcome of a single `fetch` as a `TransportEvent`: either a received
    `HttpResponse` (status, statusText, body as parsed-JSON-or-unparseable,
    raw bytes) or a rejection carrying a JavaScript error name and message;
  * the `AbortController` deadline as a race: a `TransportBehavior` is the
    underlying event together with its arrival time in milliseconds, and
    `observe` replaces events arriving after the deadline by an `AbortError`
    rejection, exactly as the aborted `fetch` would reject;
  * the two wrapped executors `apiRequest` (10 s deadline) and
    `apiFormRequest` (30 s deadline), each split into its `try` block and its
    `catch` block as in the source, plus the unwrapped, deadline-free
    `complianceApi.generateReport`;
  * `FormData` construction for the multipart endpoints;
  * `Promise.all`-based aggregation in `fetchDashboardData`.
-/

/-- A JSON value.  Numbers are modelled as integers: every numeric value the
claims mention is integral, and no code under verification does arithmetic on
JSON numbers. -/
inductive Json where
  | null : Json
  | bool (b : Bool) : Json
  | num (n : Int) : Json
  | str (s : String) : Json
  | arr (elems : List Json) : Json
  | obj (fields : List (String × Json)) : Json

/-- JavaScript truthiness of a JSON value (objects and arrays are always
truthy; `0`, `""`, `false`, `null` are falsy). -/
def jsTruthy : Json → Bool
  | Json.null => false
  | Json.bool b => b
  | Json.num n => n != 0
  | Json.str s => s != ""
  | Json.arr _ => true
  | Json.obj _ => true

/-- First-match field lookup in a JSON object body. -/
def lookupField : List (String × Json) → String → Option Json
  | [], _ => none
  | (k, v) :: rest, key => if k == key then some v else lookupField rest key

/-- `v.key` property access: a field of an object, `undefined` (None)
otherwise. -/
def jsGet : Json → String → Option Json
  | Json.obj fields, key => lookupField fields key
  | _, _ => none

/-- The JavaScript `x || fallback` idiom applied to a possibly-undefined
property: the property's value when present and truthy, the fallback string
otherwise. -/
def jsOr (v : Option Json) (fallback : String) : Json :=
  match v with
  | some j => if jsTruthy j then j else Json.str fallback
  | none => Json.str fallback

/-- Whether a character list starts with the pattern. -/
def startsWithChars : List Char → List Char → Bool
  | _, [] => true
  | [], _ :: _ => false
  | a :: as, b :: bs => a == b && startsWithChars as bs

/-- Whether a character list contains the pattern as a contiguous run. -/
def containsChars : List Char → List Char → Bool
  | [], pat => pat.isEmpty
  | a :: as, pat => startsWithChars (a :: as) pat || containsChars as pat

/-- JavaScript `s.includes(pat)`. -/
def jsStringIncludes (s pat : String) : Bool :=
  containsChars s.toList pat.toList

/-- The `ApiError` class of `src/lib/api.ts`: `constructor(message, status,
response?)`.  The message is a JSON value because the source passes
`errorData.message` through unchecked; for the fixed transport errors it is
always a string. -/
structure ApiError where
  message : Json
  status : Nat
  response : Option Json

/-- An HTTP response as the executor sees it: status, status text, the result
of `response.json()` (`none` when the body is not valid JSON, in which case
`response.json()` rejects), and the raw bytes `response.blob()` resolves to. -/
structure HttpResponse where
  status : Nat
  statusText : String
  bodyJson : Option Json
  bodyBlob : List Nat

/-- `response.ok`: status in the inclusive range 200–299. -/
def HttpResponse.ok (r : HttpResponse) : Bool :=
  200 ≤ r.status && r.status ≤ 299

/-- The settled outcome of one `fetch`: a response, or a rejection carrying a
JavaScript error's name and message (`TypeError`/`Failed to fetch` for a
refused connection, `AbortError` for an abort). -/
inductive TransportEvent where
  | response (r : HttpResponse) : TransportEvent
  | reject (errName : String) (errMessage : String) : TransportEvent

/-- A value thrown inside an executor's `try` block: either an `ApiError`
thrown by the failing-status branch, or a plain JavaScript error. -/
inductive ThrownError where
  | api (e : ApiError) : ThrownError
  | js (errName : String) (errMessage : String) : ThrownError

/-- The transport's behaviour on one call: what would settle, and when
(milliseconds after call start). -/
structure TransportBehavior where
  arrivalMs : Nat
  event : TransportEvent

/-- The event the executor observes under an optional deadline.  The
`AbortController` timer fires after `d` ms and aborts the in-flight `fetch`,
which then rejects with an `AbortError`; an event arriving within the deadline
is delivered unchanged.  `none` means no deadline is armed. -/
def observe (deadline : Option Nat) (b : TransportBehavior) : TransportEvent :=
  match deadline with
  | some d =>
      if b.arrivalMs ≤ d then b.event
      else TransportEvent.reject "AbortError" "The operation was aborted"
  | none => b.event

/-- `errorData`: the failing response's body parsed as JSON, with an empty
object substituted when parsing fails — `await response.json().catch(() => ({}))`. -/
def errorDataOf (r : HttpResponse) : Json :=
  r.bodyJson.getD (Json.obj [])

/-- The template-literal fallback message `HTTP <status>: <statusText>`. -/
def fallbackMessage (r : HttpResponse) : String :=
  "HTTP " ++ toString r.status ++ ": " ++ r.statusText

/-- The `ApiError` constructed in the `!response.ok` branch:
`new ApiError(errorData.message || fallback, response.status, errorData)`. -/
def mkStatusError (r : HttpResponse) : ApiError :=
  { message := jsOr (jsGet (errorDataOf r) "message") (fallbackMessage r)
    status := r.status
    response := some (errorDataOf r) }

/-- The `try` block of `apiRequest` (lines 18–43 of api.ts): a failing status
throws the status `ApiError`; a success status returns `await response.json()`,
whose rejection on an unparseable body is a thrown `SyntaxError`. -/
def apiRequestTryBlock (ev : TransportEvent) : Except ThrownError Json :=
  match ev with
  | TransportEvent.response r =>
      if r.ok then
        match r.bodyJson with
        | some j => Except.ok j
        | none => Except.error (ThrownError.js "SyntaxError" "Unexpected end of JSON input")
      else Except.error (ThrownError.api (mkStatusError r))
  | TransportEvent.reject name msg => Except.error (ThrownError.js name msg)

/-- The `catch` block of `apiRequest` (lines 44–55): rethrow `ApiError`
unchanged; classify `AbortError` as the timeout error, a `TypeError` whose
message mentions `fetch` as the connection error, anything else as the generic
network error. -/
def apiRequestCatchBlock : ThrownError → ApiError
  | ThrownError.api e => e
  | ThrownError.js name msg =>
      if name == "AbortError" then
        { message := Json.str "Request timeout - server may be unavailable", status := 0, response := none }
      else if name == "TypeError" && jsStringIncludes msg "fetch" then
        { message := Json.str "Network error - cannot connect to server", status := 0, response := none }
      else
        { message := Json.str "Network error or server unavailable", status := 0, response := none }

/-- `apiRequest`'s handling of an observed event: the `try` block with every
thrown value normalised by the `catch` block. -/
def apiRequestOnEvent (ev : TransportEvent) : Except ApiError Json :=
  match apiRequestTryBlock ev with
  | Except.ok j => Except.ok j
  | Except.error t => Except.error (apiRequestCatchBlock t)

/-- The 10-second deadline of `apiRequest`. -/
def apiRequestTimeoutMs : Nat := 10000

/-- The whole of `apiRequest`: arm the 10 s deadline, observe the transport,
classify. -/
def apiRequest (b : TransportBehavior) : Except ApiError Json :=
  apiRequestOnEvent (observe (some apiRequestTimeoutMs) b)

/-- The `try` block of `apiFormRequest` (lines 65–87): identical response
processing to `apiRequest`, duplicated in the source. -/
def apiFormRequestTryBlock (ev : TransportEvent) : Except ThrownError Json :=
  match ev with
  | TransportEvent.response r =>
      if r.ok then
        match r.bodyJson with
        | some j => Except.ok j
        | none => Except.error (ThrownError.js "SyntaxError" "Unexpected end of JSON input")
      else Except.error (ThrownError.api (mkStatusError r))
  | TransportEvent.reject name msg => Except.error (ThrownError.js name msg)

/-- The `catch` block of `apiFormRequest` (lines 88–99), duplicated from
`apiRequest` in the source. -/
def apiFormRequestCatchBlock : ThrownError → ApiError
  | ThrownError.api e => e
  | ThrownError.js name msg =>
      if name == "AbortError" then
        { message := Json.str "Request timeout - server may be unavailable", status := 0, response := none }
      else if name == "TypeError" && jsStringIncludes msg "fetch" then
        { message := Json.str "Network error - cannot connect to server", status := 0, response := none }
      else
        { message := Json.str "Network error or server unavailable", status := 0, response := none }

/-- `apiFormRequest`'s handling of an observed event. -/
def apiFormRequestOnEvent (ev : TransportEvent) : Except ApiError Json :=
  match apiFormRequestTryBlock ev with
  | Except.ok j => Except.ok j
  | Except.error t => Except.error (apiFormRequestCatchBlock t)

/-- The 30-second deadline of `apiFormRequest`. -/
def apiFormRequestTimeoutMs : Nat := 30000

/-- The whole of `apiFormRequest`: arm the 30 s deadline, observe, classify. -/
def apiFormRequest (b : TransportBehavior) : Except ApiError Json :=
  apiFormRequestOnEvent (observe (some apiFormRequestTimeoutMs) b)

/-- A `File` value handed to a multipart endpoint (opaque to this layer). -/
structure JsFile where
  fileName : String
  content : List Nat

/-- One entry of a `FormData` object: a file part or a string part. -/
inductive FormPart where
  | file (f : JsFile) : FormPart
  | str (s : String) : FormPart

/-- `formData.append(key, value)`: entries accumulate in append order. -/
def formDataAppend (fd : List (String × FormPart)) (key : String) (v : FormPart) :
    List (String × FormPart) :=
  fd ++ [(key, v)]

/-- The dashboard catalog entries are bare `apiRequest` calls (lines
103–107). -/
def dashboardApi.getSummary (b : TransportBehavior) : Except ApiError Json :=
  apiRequest b

/-- `dashboardApi.getModelRisk` (line 105). -/
def dashboardApi.getModelRisk (b : TransportBehavior) : Except ApiError Json :=
  apiRequest b

/-- `dashboardApi.getComplianceTrend` (line 106). -/
def dashboardApi.getComplianceTrend (b : TransportBehavior) : Except ApiError Json :=
  apiRequest b

/-- The `FormData` built by `biasDetectionApi.detect` (lines 120–127):
`new FormData()` followed by seven appends. -/
def biasDetectionApi.detectFormData (file : JsFile)
    (modelName modelVersion targetVariable sensitiveAttribute
     privilegedGroup unprivilegedGroup : String) : List (String × FormPart) :=
  let fd : List (String × FormPart) := []
  let fd := formDataAppend fd "file" (FormPart.file file)
  let fd := formDataAppend fd "model_name" (FormPart.str modelName)
  let fd := formDataAppend fd "model_version" (FormPart.str modelVersion)
  let fd := formDataAppend fd "target_variable" (FormPart.str targetVariable)
  let fd := formDataAppend fd "sensitive_attribute" (FormPart.str sensitiveAttribute)
  let fd := formDataAppend fd "privileged_group" (FormPart.str privilegedGroup)
  let fd := formDataAppend fd "unprivileged_group" (FormPart.str unprivilegedGroup)
  fd

/-- `biasDetectionApi.detect` then hands the form to `apiFormRequest`
(line 129); the response handling does not depend on the form contents. -/
def biasDetectionApi.detect (b : TransportBehavior) : Except ApiError Json :=
  apiFormRequest b

/-- `instanceIndex.toString()` for an integral JavaScript number: the decimal
string, with a leading minus sign for negatives. -/
def jsNumberToString (n : Int) : String :=
  toString n

/-- The `FormData` built by `explainabilityApi.explain` (lines 144–151):
seven appends, with `instance_index` stringified. -/
def explainabilityApi.explainFormData (file : JsFile)
    (modelName modelVersion targetVariable sensitiveAttribute : String)
    (instanceIndex : Int) (role : String) : List (String × FormPart) :=
  let fd : List (String × FormPart) := []
  let fd := formDataAppend fd "file" (FormPart.file file)
  let fd := formDataAppend fd "model_name" (FormPart.str modelName)
  let fd := formDataAppend fd "model_version" (FormPart.str modelVersion)
  let fd := formDataAppend fd "target_variable" (FormPart.str targetVariable)
  let fd := formDataAppend fd "sensitive_attribute" (FormPart.str sensitiveAttribute)
  let fd := formDataAppend fd "instance_index" (FormPart.str (jsNumberToString instanceIndex))
  let fd := formDataAppend fd "role" (FormPart.str role)
  fd

/-- `explainabilityApi.explain` hands the form to `apiFormRequest`
(line 153). -/
def explainabilityApi.explain (b : TransportBehavior) : Except ApiError Json :=
  apiFormRequest b

/-- The `FormData` built by `complianceApi.generateReport` (lines 169–177):
eight appends including `role` (default `"executive"` at the call boundary). -/
def complianceApi.generateReportFormData (file : JsFile)
    (modelName modelVersion targetVariable sensitiveAttribute
     privilegedGroup unprivilegedGroup role : String) : List (String × FormPart) :=
  let fd : List (String × FormPart) := []
  let fd := formDataAppend fd "file" (FormPart.file file)
  let fd := formDataAppend fd "model_name" (FormPart.str modelName)
  let fd := formDataAppend fd "model_version" (FormPart.str modelVersion)
  let fd := formDataAppend fd "target_variable" (FormPart.str targetVariable)
  let fd := formDataAppend fd "sensitive_attribute" (FormPart.str sensitiveAttribute)
  let fd := formDataAppend fd "privileged_group" (FormPart.str privilegedGroup)
  let fd := formDataAppend fd "unprivileged_group" (FormPart.str unprivilegedGroup)
  let fd := formDataAppend fd "role" (FormPart.str role)
  fd

/-- The response handling of `complianceApi.generateReport` (lines 179–196):
NO `try`/`catch` and NO `AbortController` in the source.  A failing status
throws the status `ApiError`; a success status resolves to `response.blob()`;
a transport rejection propagates to the caller as the raw JavaScript error. -/
def generateReportOnEvent (ev : TransportEvent) : Except ThrownError (List Nat) :=
  match ev with
  | TransportEvent.response r =>
      if r.ok then Except.ok r.bodyBlob
      else Except.error (ThrownError.api (mkStatusError r))
  | TransportEvent.reject name msg => Except.error (ThrownError.js name msg)

/-- The whole of `complianceApi.generateReport`: no deadline is armed, so the
transport's event is observed whenever it arrives. -/
def complianceApi.generateReport (b : TransportBehavior) : Except ThrownError (List Nat) :=
  generateReportOnEvent (observe none b)

/-- The fallback `DashboardData` built in `Dashboard.tsx`'s catch branch
(lines 47–60); `now` stands for `new Date().toISOString()`. -/
def fallbackSummary (now : String) : Json :=
  Json.obj
    [("timestamp", Json.str now),
     ("total_models_audited", Json.num 0),
     ("compliant_models", Json.num 0),
     ("non_compliant_models", Json.num 0),
     ("compliance_rate", Json.num 0),
     ("top_bias_source", Json.str "N/A"),
     ("most_risky_model", Json.str "N/A"),
     ("audit_status", Json.str "offline"),
     ("risk_score", Json.num 0),
     ("last_audit", Json.str "N/A"),
     ("pending_actions", Json.num 0),
     ("trend", Json.str "unknown")]

/-- `Promise.all` over two promises settling at times `ta`, `tb`: fulfils with
the pair once BOTH fulfil; rejects with the earliest rejection otherwise. -/
def promiseAll2 (ta tb : Nat) (a b : Except ApiError Json) :
    Except ApiError (Json × Json) :=
  match a, b with
  | Except.ok x, Except.ok y => Except.ok (x, y)
  | Except.error e, Except.ok _ => Except.error e
  | Except.ok _, Except.error e => Except.error e
  | Except.error ea, Except.error eb =>
      if ta ≤ tb then Except.error ea else Except.error eb

/-- `fetchDashboardData` in `Dashboard.tsx` (lines 31–77): await
`Promise.all([getSummary(), getModelRisk()])`; on fulfilment set both pieces
of state from the pair; on rejection set the fallback summary and the empty
model-risk list.  The result is the final `(dashboardData, modelRisks)`
state. -/
def fetchDashboardData (now : String) (ts tr : Nat)
    (summaryRes modelRiskRes : Except ApiError Json) : Json × Json :=
  match promiseAll2 ts tr summaryRes modelRiskRes with
  | Except.ok (s, r) => (s, r)
  | Except.error _ => (fallbackSummary now, Json.arr [])

/-- The fixed timeout `ApiError` (status 0). -/
def timeoutApiError : ApiError :=
  { message := Json.str "Request timeout - server may be unavailable", status := 0, response := none }

/-- The fixed connection-failure `ApiError` (status 0). -/
def connectApiError : ApiError :=
  { message := Json.str "Network error - cannot connect to server", status := 0, response := none }

/-- The fixed generic network-failure `ApiError` (status 0). -/
def genericApiError : ApiError :=
  { message := Json.str "Network error or server unavailable", status := 0, response := none }

/-- The outcomes the spec's error taxonomy permits for one executor call on
event `ev`: a `Success`, one of the three fixed transport errors, or the
server-reported error of a received failing response. -/
def admissibleOutcome (ev : TransportEvent) (out : Except ApiError Json) : Prop :=
  (∃ j, out = Except.ok j) ∨
  out = Except.error timeoutApiError ∨
  out = Except.error connectApiError ∨
  out = Except.error genericApiError ∨
  (∃ r, ev = TransportEvent.response r ∧ r.ok = false ∧
        out = Except.error (mkStatusError r))

/-- A status of at least 400 is outside the 200–299 success range. -/
lemma ok_eq_false_of_ge_400 (r : HttpResponse) (h : 400 ≤ r.status) :
    r.ok = false := by
  unfold HttpResponse.ok
  have h299 : ¬ (r.status ≤ 299) := by omega
  simp [h299]

/-- `apiRequest`'s classification of a rejection is determined by the error's
name and message through the shared `catch` shape. -/
lemma apiRequestOnEvent_reject (name msg : String) :
    apiRequestOnEvent (TransportEvent.reject name msg) =
      Except.error (apiRequestCatchBlock (ThrownError.js name msg)) := rfl

/-- Every outcome of `apiRequest`'s event handling is admissible. -/
lemma apiRequestOnEvent_admissible (ev : TransportEvent) :
    admissibleOutcome ev (apiRequestOnEvent ev) := by
  cases ev with
  | response r =>
      cases hok : r.ok with
      | true =>
          cases hbody : r.bodyJson with
          | some j =>
              exact Or.inl ⟨j, by simp [apiRequestOnEvent, apiRequestTryBlock, hok, hbody]⟩
          | none =>
              refine Or.inr (Or.inr (Or.inr (Or.inl ?_)))
              simp [apiRequestOnEvent, apiRequestTryBlock, hok, hbody,
                    apiRequestCatchBlock, genericApiError]
      | false =>
          refine Or.inr (Or.inr (Or.inr (Or.inr ⟨r, rfl, hok, ?_⟩)))
          simp [apiRequestOnEvent, apiRequestTryBlock, hok, apiRequestCatchBlock]
  | reject name msg =>
      rw [apiRequestOnEvent_reject]
      unfold apiRequestCatchBlock
      by_cases h1 : (name == "AbortError") = true
      · refine Or.inr (Or.inl ?_)
        simp [h1, timeoutApiError]
      · by_cases h2 : ((name == "TypeError") && jsStringIncludes msg "fetch") = true
        · refine Or.inr (Or.inr (Or.inl ?_))
          simp [h1, h2, connectApiError]
        · refine Or.inr (Or.inr (Or.inr (Or.inl ?_)))
          simp [h1, h2, genericApiError]

/-- Every outcome of `apiFormRequest`'s event handling is admissible; the
source duplicates `apiRequest`'s processing verbatim, and the two agree. -/
lemma apiFormRequestOnEvent_eq (ev : TransportEvent) :
    apiFormRequestOnEvent ev = apiRequestOnEvent ev := rfl

/-- Admissibility for the form executor. -/
lemma apiFormRequestOnEvent_admissible (ev : TransportEvent) :
    admissibleOutcome ev (apiFormRequestOnEvent ev) := by
  rw [apiFormRequestOnEvent_eq]
  exact apiRequestOnEvent_admissible ev

/-- Claim C5: the multipart form built by `detect` holds exactly the seven
declared fields in declaration order, scalars as strings; the form built by
`explain` holds exactly its seven declared fields in order, with
`instance_index` the decimal string of the given integer. -/
theorem detect_explain_form_fields (file : JsFile)
    (mn mv tv sa pg ug role : String) (ii : Int) :
    biasDetectionApi.detectFormData file mn mv tv sa pg ug =
      [("file", FormPart.file file),
       ("model_name", FormPart.str mn),
       ("model_version", FormPart.str mv),
       ("target_variable", FormPart.str tv),
       ("sensitive_attribute", FormPart.str sa),
       ("privileged_group", FormPart.str pg),
       ("unprivileged_group", FormPart.str ug)] ∧
    explainabilityApi.explainFormData file mn mv tv sa ii role =
      [("file", FormPart.file file),
       ("model_name", FormPart.str mn),
       ("model_version", FormPart.str mv),
       ("target_variable", FormPart.str tv),
       ("sensitive_attribute", FormPart.str sa),
       ("instance_index", FormPart.str (jsNumberToString ii)),
       ("role", FormPart.str role)] :=
  ⟨rfl, rfl⟩

/-- Claim C8: failure classification is deterministic — classifying the same
transport failure twice yields `ApiError`s equal in status and message, and
the two executors' classifiers agree on every transport failure. -/
theorem classification_deterministic :
    (∀ t₁ t₂ : ThrownError, t₁ = t₂ →
        (apiRequestCatchBlock t₁).status = (apiRequestCatchBlock t₂).status ∧
        (apiRequestCatchBlock t₁).message = (apiRequestCatchBlock t₂).message) ∧
    (∀ name msg, apiRequestCatchBlock (ThrownError.js name msg) =
        apiFormRequestCatchBlock (ThrownError.js name msg)) := by
  constructor
  · intro t₁ t₂ h
    subst h
    exact ⟨rfl, rfl⟩
  · intro name msg
    rfl

/-- Witness for C8 at a concrete repeated transport failure. -/
theorem classification_deterministic_witness :
    (apiRequestCatchBlock (ThrownError.js "TypeError" "Failed to fetch")).status =
      (apiRequestCatchBlock (ThrownError.js "TypeError" "Failed to fetch")).status ∧
    (apiRequestCatchBlock (ThrownError.js "TypeError" "Failed to fetch")).message =
      (apiRequestCatchBlock (ThrownError.js "TypeError" "Failed to fetch")).message :=
  classification_deterministic.1
    (ThrownError.js "TypeError" "Failed to fetch")
    (ThrownError.js "TypeError" "Failed to fetch") rfl

/-- Claim C9: an `ApiError` raised for a failing-status response passes
through the surrounding `catch` unchanged in both executors, so a
server-reported failure keeps its real status and is never reclassified as a
status-0 transport error. -/
theorem status_error_rethrown_unchanged :
    (∀ e : ApiError,
        apiRequestCatchBlock (ThrownError.api e) = e ∧
        apiFormRequestCatchBlock (ThrownError.api e) = e) ∧
    (∀ r : HttpResponse, r.ok = false →
        apiRequestOnEvent (TransportEvent.response r) = Except.error (mkStatusError r) ∧
        apiFormRequestOnEvent (TransportEvent.response r) = Except.error (mkStatusError r) ∧
        (mkStatusError r).status = r.status) := by
  constructor
  · intro e
    exact ⟨rfl, rfl⟩
  · intro r h
    refine ⟨?_, ?_, rfl⟩
    · simp [apiRequestOnEvent, apiRequestTryBlock, h, apiRequestCatchBlock]
    · simp [apiFormRequestOnEvent, apiFormRequestTryBlock, h, apiFormRequestCatchBlock]

/-- Witness for C9: a received 422 response keeps status 422 in both
executors. -/
theorem status_error_rethrown_unchanged_witness :
    apiRequestOnEvent (TransportEvent.response
        ⟨422, "Unprocessable Entity", some (Json.obj [("message", Json.str "missing column")]), []⟩) =
      Except.error (mkStatusError
        ⟨422, "Unprocessable Entity", some (Json.obj [("message", Json.str "missing column")]), []⟩) ∧
    apiFormRequestOnEvent (TransportEvent.response
        ⟨422, "Unprocessable Entity", some (Json.obj [("message", Json.str "missing column")]), []⟩) =
      Except.error (mkStatusError
        ⟨422, "Unprocessable Entity", some (Json.obj [("message", Json.str "missing column")]), []⟩) ∧
    (mkStatusError
        ⟨422, "Unprocessable Entity", some (Json.obj [("message", Json.str "missing column")]), []⟩).status = 422 :=
  status_error_rethrown_unchanged.2
    ⟨422, "Unprocessable Entity", some (Json.obj [("message", Json.str "missing column")]), []⟩
    (by decide)

/-- Claim C10: a success-status response whose body is not valid JSON does not
yield a `Success`: the body-parse rejection falls to the generic handler and
the call resolves to the status-0 generic network `ApiError`. -/
theorem success_status_unparseable_body (r : HttpResponse)
    (hok : r.ok = true) (hbody : r.bodyJson = none) :
    apiRequestOnEvent (TransportEvent.response r) = Except.error genericApiError ∧
    apiFormRequestOnEvent (TransportEvent.response r) = Except.error genericApiError := by
  constructor
  · simp [apiRequestOnEvent, apiRequestTryBlock, hok, hbody,
          apiRequestCatchBlock, genericApiError]
  · simp [apiFormRequestOnEvent, apiFormRequestTryBlock, hok, hbody,
          apiFormRequestCatchBlock, genericApiError]

/-- Witness for C10: a 200 response with an unparseable body. -/
theorem success_status_unparseable_body_witness :
    apiRequestOnEvent (TransportEvent.response ⟨200, "OK", none, []⟩) =
      Except.error genericApiError ∧
    apiFormRequestOnEvent (TransportEvent.response ⟨200, "OK", none, []⟩) =
      Except.error genericApiError :=
  success_status_unparseable_body ⟨200, "OK", none, []⟩ (by decide) rfl

/-- Claim C3: every received response with status ≥ 400 yields a failure whose
`ApiError.status` equals the response status in all three response paths, with
the empty object as raw body when the body is not valid JSON. -/
theorem failing_status_preserved (r : HttpResponse) (h : 400 ≤ r.status) :
    apiRequestOnEvent (TransportEvent.response r) = Except.error (mkStatusError r) ∧
    apiFormRequestOnEvent (TransportEvent.response r) = Except.error (mkStatusError r) ∧
    generateReportOnEvent (TransportEvent.response r) =
      Except.error (ThrownError.api (mkStatusError r)) ∧
    (mkStatusError r).status = r.status ∧
    (r.bodyJson = none → (mkStatusError r).response = some (Json.obj [])) := by
  have hok : r.ok = false := ok_eq_false_of_ge_400 r h
  refine ⟨?_, ?_, ?_, rfl, ?_⟩
  · simp [apiRequestOnEvent, apiRequestTryBlock, hok, apiRequestCatchBlock]
  · simp [apiFormRequestOnEvent, apiFormRequestTryBlock, hok, apiFormRequestCatchBlock]
  · simp [generateReportOnEvent, hok]
  · intro hbody
    simp [mkStatusError, errorDataOf, hbody]

/-- Witness for C3: a 500 response with an unparseable body in all three
paths. -/
theorem failing_status_preserved_witness :
    apiRequestOnEvent (TransportEvent.response ⟨500, "Internal Server Error", none, []⟩) =
      Except.error (mkStatusError ⟨500, "Internal Server Error", none, []⟩) ∧
    apiFormRequestOnEvent (TransportEvent.response ⟨500, "Internal Server Error", none, []⟩) =
      Except.error (mkStatusError ⟨500, "Internal Server Error", none, []⟩) ∧
    generateReportOnEvent (TransportEvent.response ⟨500, "Internal Server Error", none, []⟩) =
      Except.error (ThrownError.api (mkStatusError ⟨500, "Internal Server Error", none, []⟩)) ∧
    (mkStatusError ⟨500, "Internal Server Error", none, []⟩).status = 500 ∧
    ((⟨500, "Internal Server Error", none, []⟩ : HttpResponse).bodyJson = none →
      (mkStatusError ⟨500, "Internal Server Error", none, []⟩).response = some (Json.obj [])) :=
  failing_status_preserved ⟨500, "Internal Server Error", none, []⟩ (by decide)

/-- Claim C6: a JSON-mode call whose response arrives in time with a success
status and a parseable body yields `Success` with exactly the decoded body. -/
theorem json_success_roundtrip (t : Nat) (r : HttpResponse) (j : Json)
    (ht : t ≤ apiRequestTimeoutMs) (hok : r.ok = true) (hbody : r.bodyJson = some j) :
    dashboardApi.getSummary ⟨t, TransportEvent.response r⟩ = Except.ok j := by
  unfold dashboardApi.getSummary apiRequest observe
  simp [ht, apiRequestOnEvent, apiRequestTryBlock, hok, hbody]

/-- Witness for C6: the spec scenario — a 200 summary response decoding to a
body whose `total_models_audited` is 12. -/
theorem json_success_roundtrip_witness :
    dashboardApi.getSummary ⟨50, TransportEvent.response
        ⟨200, "OK", some (Json.obj [("total_models_audited", Json.num 12),
                                    ("compliance_rate", Json.num 94)]), []⟩⟩ =
      Except.ok (Json.obj [("total_models_audited", Json.num 12),
                           ("compliance_rate", Json.num 94)]) ∧
    jsGet (Json.obj [("total_models_audited", Json.num 12),
                     ("compliance_rate", Json.num 94)]) "total_models_audited" =
      some (Json.num 12) :=
  ⟨json_success_roundtrip 50
      ⟨200, "OK", some (Json.obj [("total_models_audited", Json.num 12),
                                  ("compliance_rate", Json.num 94)]), []⟩
      (Json.obj [("total_models_audited", Json.num 12),
                 ("compliance_rate", Json.num 94)])
      (by decide) (by decide) rfl,
   rfl⟩

/-- Claim C7: the dashboard aggregation combines the two results only when
both calls succeed, and whenever either call fails — in either completion
order — the aggregate falls back as a whole, with no partial-success state. -/
theorem dashboard_aggregation (now : String) (ts tr : Nat)
    (a b : Except ApiError Json) :
    (∀ s r, a = Except.ok s → b = Except.ok r →
        fetchDashboardData now ts tr a b = (s, r)) ∧
    (∀ e, a = Except.error e →
        fetchDashboardData now ts tr a b = (fallbackSummary now, Json.arr [])) ∧
    (∀ e, b = Except.error e →
        fetchDashboardData now ts tr a b = (fallbackSummary now, Json.arr [])) := by
  refine ⟨?_, ?_, ?_⟩
  · intro s r ha hb
    subst ha; subst hb
    rfl
  · intro e ha
    subst ha
    cases b with
    | ok v => rfl
    | error e2 =>
        unfold fetchDashboardData promiseAll2
        by_cases h : ts ≤ tr <;> simp [h]
  · intro e hb
    subst hb
    cases a with
    | ok v => rfl
    | error e2 =>
        unfold fetchDashboardData promiseAll2
        by_cases h : ts ≤ tr <;> simp [h]

/-- Witness for C7: the summary call fails with a timeout while the
model-risk call succeeds, in both completion orders: the whole aggregate
falls back. -/
theorem dashboard_aggregation_witness :
    fetchDashboardData "2025-01-01T00:00:00.000Z" 5 7
        (Except.error timeoutApiError) (Except.ok (Json.arr [])) =
      (fallbackSummary "2025-01-01T00:00:00.000Z", Json.arr []) ∧
    fetchDashboardData "2025-01-01T00:00:00.000Z" 7 5
        (Except.error timeoutApiError) (Except.ok (Json.arr [])) =
      (fallbackSummary "2025-01-01T00:00:00.000Z", Json.arr []) :=
  ⟨(dashboard_aggregation "2025-01-01T00:00:00.000Z" 5 7
      (Except.error timeoutApiError) (Except.ok (Json.arr []))).2.1
      timeoutApiError rfl,
   (dashboard_aggregation "2025-01-01T00:00:00.000Z" 7 5
      (Except.error timeoutApiError) (Except.ok (Json.arr []))).2.1
      timeoutApiError rfl⟩

/-- Counterexample to claim C1 as stated: on `generate-compliance-report` a
refused connection (the transport rejecting with `TypeError: Failed to fetch`
40 ms in) reaches the caller as the raw transport exception, not as a
`Failure(ApiError)` — the source wraps that endpoint's `fetch` in no
`try`/`catch`. -/
theorem generateReport_raw_transport_exception :
    complianceApi.generateReport ⟨40, TransportEvent.reject "TypeError" "Failed to fetch"⟩ =
      Except.error (ThrownError.js "TypeError" "Failed to fetch") := rfl

/-- Claim C1 as amended: for the two wrapped executors (every catalog
operation except `generate-compliance-report`) a refused connection resolves
to the connection-failure `ApiError`, and every outcome is a `Success` or one
of the four `ApiError` forms; the report endpoint's deadline-free pipeline is
the same classification applied to the raw event. -/
theorem transport_failures_normalized (msg : String)
    (hmsg : jsStringIncludes msg "fetch" = true) :
    (apiRequestOnEvent (TransportEvent.reject "TypeError" msg) =
        Except.error connectApiError ∧
     apiFormRequestOnEvent (TransportEvent.reject "TypeError" msg) =
        Except.error connectApiError) ∧
    (∀ ev, admissibleOutcome ev (apiRequestOnEvent ev) ∧
           admissibleOutcome ev (apiFormRequestOnEvent ev)) ∧
    (∀ b : TransportBehavior,
        apiRequest b = apiRequestOnEvent (observe (some apiRequestTimeoutMs) b) ∧
        apiFormRequest b = apiFormRequestOnEvent (observe (some apiFormRequestTimeoutMs) b)) := by
  refine ⟨⟨?_, ?_⟩, ?_, ?_⟩
  · rw [apiRequestOnEvent_reject]
    unfold apiRequestCatchBlock
    simp [hmsg, connectApiError]
  · rw [apiFormRequestOnEvent_eq, apiRequestOnEvent_reject]
    unfold apiRequestCatchBlock
    simp [hmsg, connectApiError]
  · intro ev
    exact ⟨apiRequestOnEvent_admissible ev, apiFormRequestOnEvent_admissible ev⟩
  · intro b
    exact ⟨rfl, rfl⟩

/-- Witness for the amended C1 at the concrete refused-connection message. -/
theorem transport_failures_normalized_witness :
    apiRequestOnEvent (TransportEvent.reject "TypeError" "Failed to fetch") =
      Except.error connectApiError ∧
    apiFormRequestOnEvent (TransportEvent.reject "TypeError" "Failed to fetch") =
      Except.error connectApiError :=
  (transport_failures_normalized "Failed to fetch" (by decide)).1

/-- Counterexample to claim C2 as stated: `generate-compliance-report` is a
multipart-mode call, yet a response arriving 31 s in — beyond the claimed
30 s deadline — still resolves to a (late) `Success`, because the source arms
no timeout on that endpoint. -/
theorem generateReport_late_success :
    complianceApi.generateReport
        ⟨31000, TransportEvent.response ⟨200, "OK", some Json.null, [37, 80]⟩⟩ =
      Except.ok [37, 80] := rfl

/-- Claim C2 as amended: calls through `apiRequest` carry a 10 s deadline and
calls through `apiFormRequest` a 30 s deadline; an event arriving beyond the
deadline resolves to the timeout `ApiError` and never to a late `Success`
(`generate-compliance-report` is excluded: it arms no deadline). -/
theorem deadlines_enforced (b : TransportBehavior) :
    (apiRequestTimeoutMs < b.arrivalMs →
        apiRequest b = Except.error timeoutApiError) ∧
    (apiFormRequestTimeoutMs < b.arrivalMs →
        apiFormRequest b = Except.error timeoutApiError) := by
  constructor
  · intro h
    have hn : ¬ (b.arrivalMs ≤ apiRequestTimeoutMs) := by omega
    unfold apiRequest observe
    simp [hn, apiRequestOnEvent, apiRequestTryBlock, apiRequestCatchBlock,
          timeoutApiError]
  · intro h
    have hn : ¬ (b.arrivalMs ≤ apiFormRequestTimeoutMs) := by omega
    unfold apiFormRequest observe
    simp [hn, apiFormRequestOnEvent, apiFormRequestTryBlock, apiFormRequestCatchBlock,
          timeoutApiError]

/-- Witness for the amended C2: a success response arriving at 50 s resolves
to the timeout error in both executors. -/
theorem deadlines_enforced_witness :
    apiRequest ⟨50000, TransportEvent.response ⟨200, "OK", some Json.null, []⟩⟩ =
      Except.error timeoutApiError ∧
    apiFormRequest ⟨50000, TransportEvent.response ⟨200, "OK", some Json.null, []⟩⟩ =
      Except.error timeoutApiError :=
  ⟨(deadlines_enforced ⟨50000, TransportEvent.response ⟨200, "OK", some Json.null, []⟩⟩).1
      (by decide),
   (deadlines_enforced ⟨50000, TransportEvent.response ⟨200, "OK", some Json.null, []⟩⟩).2
      (by decide)⟩

/-- The failing response of the C4 counterexample: status 422 with body
`{"message": ""}` — the `message` field present but falsy. -/
def emptyMessageResponse : HttpResponse :=
  ⟨422, "Unprocessable Entity", some (Json.obj [("message", Json.str "")]), []⟩

/-- Counterexample to claim C4 as stated: the parsed body's `message` field is
present (the empty string), yet the resulting `ApiError.message` is the
`HTTP 422` fallback — the source uses truthiness-based `||`, not the `??`
semantics the claim states. -/
theorem message_fallback_on_falsy :
    apiRequestOnEvent (TransportEvent.response emptyMessageResponse) =
      Except.error
        { message := Json.str (fallbackMessage emptyMessageResponse)
          status := 422
          response := some (Json.obj [("message", Json.str "")]) } ∧
    jsGet (errorDataOf emptyMessageResponse) "message" = some (Json.str "") ∧
    fallbackMessage emptyMessageResponse ≠ "" :=
  ⟨rfl, rfl, by decide⟩

/-- Claim C4 as amended: for a failing-status response the `ApiError.message`
equals the parsed body's `message` field when that field is present and truthy,
and otherwise (field absent, or present with a falsy value such as `""`) the
`HTTP <status>: <status text>` fallback — the `||` semantics the source
actually uses. -/
theorem failing_message_selection (r : HttpResponse) (h : r.ok = false) :
    (∀ j, jsGet (errorDataOf r) "message" = some j → jsTruthy j = true →
        apiRequestOnEvent (TransportEvent.response r) =
          Except.error { message := j, status := r.status, response := some (errorDataOf r) } ∧
        apiFormRequestOnEvent (TransportEvent.response r) =
          Except.error { message := j, status := r.status, response := some (errorDataOf r) }) ∧
    (∀ j, jsGet (errorDataOf r) "message" = some j → jsTruthy j = false →
        apiRequestOnEvent (TransportEvent.response r) =
          Except.error { message := Json.str (fallbackMessage r), status := r.status,
                         response := some (errorDataOf r) } ∧
        apiFormRequestOnEvent (TransportEvent.response r) =
          Except.error { message := Json.str (fallbackMessage r), status := r.status,
                         response := some (errorDataOf r) }) ∧
    (jsGet (errorDataOf r) "message" = none →
        apiRequestOnEvent (TransportEvent.response r) =
          Except.error { message := Json.str (fallbackMessage r), status := r.status,
                         response := some (errorDataOf r) } ∧
        apiFormRequestOnEvent (TransportEvent.response r) =
          Except.error { message := Json.str (fallbackMessage r), status := r.status,
                         response := some (errorDataOf r) }) := by
  refine ⟨?_, ?_, ?_⟩
  · intro j hj htruthy
    constructor
    · simp [apiRequestOnEvent, apiRequestTryBlock, h, apiRequestCatchBlock,
            mkStatusError, jsOr, hj, htruthy]
    · simp [apiFormRequestOnEvent, apiFormRequestTryBlock, h, apiFormRequestCatchBlock,
            mkStatusError, jsOr, hj, htruthy]
  · intro j hj hfalsy
    constructor
    · simp [apiRequestOnEvent, apiRequestTryBlock, h, apiRequestCatchBlock,
            mkStatusError, jsOr, hj, hfalsy]
    · simp [apiFormRequestOnEvent, apiFormRequestTryBlock, h, apiFormRequestCatchBlock,
            mkStatusError, jsOr, hj, hfalsy]
  · intro hnone
    constructor
    · simp [apiRequestOnEvent, apiRequestTryBlock, h, apiRequestCatchBlock,
            mkStatusError, jsOr, hnone]
    · simp [apiFormRequestOnEvent, apiFormRequestTryBlock, h, apiFormRequestCatchBlock,
            mkStatusError, jsOr, hnone]

/-- Witness for the amended C4: the spec's 422 scenario — body
`{"message": "missing column"}` yields `ApiError{status: 422,
message: "missing column"}` in both executors. -/
theorem failing_message_selection_witness :
    apiRequestOnEvent (TransportEvent.response
        ⟨422, "Unprocessable Entity",
         some (Json.obj [("message", Json.str "missing column")]), []⟩) =
      Except.error
        { message := Json.str "missing column", status := 422,
          response := some (errorDataOf
            ⟨422, "Unprocessable Entity",
             some (Json.obj [("message", Json.str "missing column")]), []⟩) } ∧
    apiFormRequestOnEvent (TransportEvent.response
        ⟨422, "Unprocessable Entity",
         some (Json.obj [("message", Json.str "missing column")]), []⟩) =
      Except.error
        { message := Json.str "missing column", status := 422,
          response := some (errorDataOf
            ⟨422, "Unprocessable Entity",
             some (Json.obj [("message", Json.str "missing column")]), []⟩) } :=
  (failing_message_selection
      ⟨422, "Unprocessable Entity",
       some (Json.obj [("message", Json.str "missing column")]), []⟩
      (by decide)).1 (Json.str "missing column") rfl (by decide)
